import Mathlib

/-!
Shallow embedding of the Translation Session & Fan-Out Routing Engine of the
multilingual repository (TypeScript backend).  The definitions below are
translated from:
  * src/backend/src/services/livekitService.ts   (WebSocket translation service)
  * src/backend/src/services/aiService.ts        (AI collaborator wrappers)
  * src/backend/src/services/translationWorkerOptimized.ts
  * the audio processor / config module (ParticipantAudioBuffer, config)
External AI calls (Whisper, GPT-4 translation, TTS) are modelled by explicit
outcome oracles; JavaScript Maps and Sets are modelled by insertion-ordered
association lists and duplicate-free lists; millisecond timestamps are natural
numbers and JS float arithmetic on audio statistics is modelled exactly over ℚ.
-/

/-! ## Association-list model of a JavaScript Map (insertion ordered) -/

/-- Lookup of a key in an insertion-ordered association list (JS Map.get). -/
def mapLookup {κ α : Type} [DecidableEq κ] : List (κ × α) → κ → Option α
  | [], _ => none
  | p :: ps, k => if p.1 = k then some p.2 else mapLookup ps k

/-- Insertion into an association list (JS Map.set): replaces the entry in
place when the key is present, otherwise appends at the end. -/
def mapInsert {κ α : Type} [DecidableEq κ] : List (κ × α) → κ → α → List (κ × α)
  | [], k, v => [(k, v)]
  | p :: ps, k, v => if p.1 = k then (k, v) :: ps else p :: mapInsert ps k v

/-- Deletion from an association list (JS Map.delete): removes the (single)
entry holding the key. -/
def mapErase {κ α : Type} [DecidableEq κ] : List (κ × α) → κ → List (κ × α)
  | [], _ => []
  | p :: ps, k => if p.1 = k then ps else p :: mapErase ps k

/-- Keys of an association list are pairwise distinct (JS Map invariant). -/
def mapNodup {κ α : Type} (m : List (κ × α)) : Prop :=
  (m.map Prod.fst).Nodup

instance {κ α : Type} [DecidableEq κ] (m : List (κ × α)) : Decidable (mapNodup m) := by
  unfold mapNodup; infer_instance

/-- Membership-avoiding insertion into an ordered set (JS Set.add). -/
def setAdd {α : Type} [DecidableEq α] (s : List α) (x : α) : List α :=
  if x ∈ s then s else s ++ [x]

/-- Removal from an ordered set (JS Set.delete). -/
def setDel {α : Type} [DecidableEq α] (s : List α) (x : α) : List α :=
  s.filter (fun y => !(decide (y = x)))





/-! ## Audio accumulator (ParticipantAudioBuffer, audioProcessor module)

Config constants come from the config module: bufferDurationMs = 1500,
audio.sampleRate = 48000, audio.channels = 1, silenceThreshold = 0.01.
The source compares the RMS energy sqrt(meanSquare) against 0.01; both sides
being nonnegative, that comparison is equivalent to comparing the mean square
against 0.01 squared, which is how the silence gate is stated here so that it
stays decidable over ℚ (a bridging lemma with Real.sqrt is proved below). -/

/-- Buffer duration before processing, in milliseconds (config.audio.bufferDurationMs). -/
def bufferDurationMs : ℕ := 1500

/-- Default sample rate of the worker pipeline (config.audio.sampleRate). -/
def configSampleRate : ℕ := 48000

/-- Default channel count (config.audio.channels). -/
def configChannels : ℕ := 1

/-- Square of the silence threshold 0.01 (config.audio.silenceThreshold). -/
def silenceThresholdSq : ℚ := 1 / 10000

/-- Per-participant audio accumulator (class ParticipantAudioBuffer).
Chunks are Int16 sample arrays; totalSamples is the running sample count. -/
structure ParticipantAudioBuffer where
  participantId : String
  participantName : String
  roomName : String
  sampleRate : ℕ
  channels : ℕ
  targetSamples : ℕ
  samples : List (List ℤ)
  totalSamples : ℕ
deriving Repr, DecidableEq

/-- Constructor of ParticipantAudioBuffer: targetSamples =
floor(sampleRate * bufferDurationMs / 1000). -/
def mkParticipantAudioBuffer (participantId participantName roomName : String)
    (sampleRate channels : ℕ) : ParticipantAudioBuffer :=
  { participantId := participantId
    participantName := participantName
    roomName := roomName
    sampleRate := sampleRate
    channels := channels
    targetSamples := sampleRate * bufferDurationMs / 1000
    samples := []
    totalSamples := 0 }

/-- Method addFrame: push the frame and bump the running count. -/
def ParticipantAudioBuffer.addFrame (b : ParticipantAudioBuffer) (frame : List ℤ) :
    ParticipantAudioBuffer :=
  { b with samples := b.samples ++ [frame], totalSamples := b.totalSamples + frame.length }

/-- Method isReady: totalSamples >= targetSamples (the source checks nothing else). -/
def ParticipantAudioBuffer.isReady (b : ParticipantAudioBuffer) : Bool :=
  decide (b.targetSamples ≤ b.totalSamples)

/-- Method clear: drop all buffered data. -/
def ParticipantAudioBuffer.clear (b : ParticipantAudioBuffer) : ParticipantAudioBuffer :=
  { b with samples := [], totalSamples := 0 }

/-- Squared average energy of the samples: mean of (sample/32768)^2
(function calculateAudioEnergy returns the square root of this value). -/
def calculateAudioEnergySq (samples : List ℤ) : ℚ :=
  if samples.length = 0 then 0
  else (samples.map (fun x : ℤ => ((x : ℚ) / 32768) ^ 2)).sum / (samples.length : ℚ)

/-- Executable form of the silence gate of flush: energy below the 0.01
threshold.  Over the rationals, sqrt(sumSq / (32768^2 n)) < 1/100 is the same
as 10000 * sumSq < 32768^2 * n = 1073741824 * n; an empty sample list has
energy 0, which is below the threshold.  The lemma isSilentAudio_iff below
ties this to calculateAudioEnergySq. -/
def isSilentAudio (samples : List ℤ) : Bool :=
  if samples.length = 0 then true
  else decide ((samples.map (fun x => x.natAbs * x.natAbs)).sum * 10000 <
    1073741824 * samples.length)

/-- Payload produced by a flush (interface AudioBuffer of the backend types). -/
structure AudioBufferPayload where
  participantId : String
  participantName : String
  roomName : String
  samples : List ℤ
  sampleRate : ℕ
  channels : ℕ
  timestamp : ℕ
deriving Repr, DecidableEq

/-- Method flush: returns null when the buffer is empty; otherwise concatenates
the chunks, resets the buffer, and returns null (silence gate) when the
average energy is below the threshold, else the combined payload. -/
def ParticipantAudioBuffer.flush (b : ParticipantAudioBuffer) (now : ℕ) :
    Option AudioBufferPayload × ParticipantAudioBuffer :=
  if b.totalSamples = 0 then (none, b)
  else
    let combined := b.samples.flatten
    let cleared : ParticipantAudioBuffer := { b with samples := [], totalSamples := 0 }
    if isSilentAudio combined then (none, cleared)
    else
      (some { participantId := b.participantId
              participantName := b.participantName
              roomName := b.roomName
              samples := combined
              sampleRate := b.sampleRate
              channels := b.channels
              timestamp := now }, cleared)


/-! ## AI collaborator models (aiService.ts)

The three OpenAI calls are external; their network outcomes are oracles.
What is embedded faithfully is the surrounding control flow: transcribeAudio
rethrows failures, translateText catches failures and falls back to the
original text (and also falls back when the API returns empty content), and
textToSpeech rethrows failures. -/

/-- Result of Whisper transcription (interface TranscriptionResult). -/
structure TranscriptionResult where
  text : String
  detectedLanguage : String
  confidence : Option ℚ
deriving Repr, DecidableEq

/-- Network outcome of the Whisper call, as seen by callers of transcribeAudio:
either a result or a thrown error. -/
inductive TranscribeOutcome where
  | ok (r : TranscriptionResult)
  | err (msg : String)
deriving Repr, DecidableEq

/-- Network outcome of the GPT-4 chat call inside translateText: ok carries
choices[0]?.message?.content (None models a missing content). -/
inductive ChatOutcome where
  | ok (content : Option String)
  | err (msg : String)
deriving Repr, DecidableEq

/-- Network outcome of the TTS call inside textToSpeech. -/
inductive TtsOutcome where
  | ok (audio : List ℕ)
  | err (msg : String)
deriving Repr, DecidableEq

/-- Result of translateText (interface TranslationResult). -/
structure TranslationResult where
  originalText : String
  translatedText : String
  sourceLanguage : String
  targetLanguage : String
deriving Repr, DecidableEq

/-- Function translateText: skips the API when source = target; on API success
uses content.trim() falling back to the original text when empty or missing;
on API failure catches the error and falls back to the original text. -/
def translateText (text sourceLanguage targetLanguage : String) (api : ChatOutcome) :
    TranslationResult :=
  if sourceLanguage = targetLanguage then
    { originalText := text, translatedText := text
      sourceLanguage := sourceLanguage, targetLanguage := targetLanguage }
  else
    match api with
    | .ok content =>
        let t :=
          match content with
          | some c => if c.trim = "" then text else c.trim
          | none => text
        { originalText := text, translatedText := t
          sourceLanguage := sourceLanguage, targetLanguage := targetLanguage }
    | .err _ =>
        { originalText := text, translatedText := text
          sourceLanguage := sourceLanguage, targetLanguage := targetLanguage }

/-- Error text produced by textToSpeech when the TTS call fails. -/
def ttsFailedTag : String := "TTS failed: "

/-- Function textToSpeech: returns the audio bytes, or rethrows the failure
with the TTS error text. -/
def textToSpeech (o : TtsOutcome) : Except String (List ℕ) :=
  match o with
  | .ok audio => .ok audio
  | .err m => .error (ttsFailedTag ++ m)

/-! ## WebSocket translation service (livekitService.ts, translation part)

Sessions are keyed by the WebSocket connection, modelled as a natural-number
handle; the set of currently open connections is passed explicitly (sendMessage
checks ws.readyState === OPEN before writing).  Outbound traffic is returned as
a list of (connection, message) pairs. -/

/-- Process every 2 seconds of audio (constant CHUNK_DURATION_MS). -/
def CHUNK_DURATION_MS : ℕ := 2000

/-- Minimum buffered bytes before processing (constant MIN_AUDIO_SIZE). -/
def MIN_AUDIO_SIZE : ℕ := 32000

/-- Default sample rate of a session (constant DEFAULT_SAMPLE_RATE). -/
def DEFAULT_SAMPLE_RATE : ℕ := 16000

/-- Default channel count of a session (constant DEFAULT_CHANNELS). -/
def DEFAULT_CHANNELS : ℕ := 1

/-- Per-connection session state (interface TranslationSession).  The ws field
of the source is the key of the sessions map; it is kept here as wsId. -/
structure TranslationSession where
  wsId : ℕ
  participantId : String
  roomName : String
  targetLanguage : String
  audioBuffer : List (List ℕ)
  isProcessing : Bool
  lastProcessTime : ℕ
  sampleRate : ℕ
  channels : ℕ
deriving Repr, DecidableEq

/-- Module-level mutable state of the service: the sessions map (keyed by
connection) and the room index (room name to set of member connections). -/
structure ServiceState where
  sessions : List (ℕ × TranslationSession)
  roomParticipants : List (String × List ℕ)
deriving Repr, DecidableEq

/-- Server-to-client messages of the service (JSON frames, plus the binary
MP3 frame sent after a translation). -/
inductive OutMsg where
  | started (participantId targetLanguage : String) (roomParticipants : ℕ)
  | stopped
  | configured (targetLanguage : String)
  | processing (audioSize : ℕ)
  | transcription (text language : String)
  | noSpeech (message : String)
  | incomingMessage (fromId originalText translatedText sourceLanguage targetLanguage : String)
      (wasTranslated : Bool)
  | errorMsg (error : String)
  | audioBinary (bytes : List ℕ)
deriving Repr, DecidableEq

/-- Parsed client control messages; option fields are absent JSON fields. -/
inductive ControlMsg where
  | start (participantId roomName targetLanguage : Option String) (sampleRate channels : Option ℕ)
  | stop
  | configure (targetLanguage : Option String) (sampleRate : Option ℕ)
  | other (t : String)
deriving Repr, DecidableEq

/-- JS truthy defaulting for strings: value || d (empty string is falsy). -/
def strOr (o : Option String) (d : String) : String :=
  match o with
  | some s => if s = "" then d else s
  | none => d

/-- JS truthy defaulting for numbers: value || d (zero is falsy). -/
def natOr (o : Option ℕ) (d : ℕ) : ℕ :=
  match o with
  | some n => if n = 0 then d else n
  | none => d

/-- Generated participant id when 'start' carries none: user-(Date.now()). -/
def defaultUserTag : String := "user-"

/-- Default room name of a session. -/
def defaultRoomName : String := "default"

/-- Default target language of a session. -/
def defaultTargetLang : String := "en"

/-- Notice text for the too-quiet silence gate. -/
def audioTooQuietText : String := "Audio too quiet"

/-- Notice text when transcription finds no speech. -/
def noSpeechText : String := "No speech detected in audio"

/-- Error text head used when the pipeline run fails. -/
def translationFailedTag : String := "Translation failed: "

/-- Error text head of the per-recipient failure report. -/
def translationFromTag : String := "Translation from "

/-- Error text middle of the per-recipient failure report. -/
def failedColonTag : String := " failed: "

/-- Error text sent when a frame cannot be processed at all. -/
def failedToProcessText : String := "Failed to process message"

/-- Function sendMessage: writes to one connection when it is still open. -/
def sendMessageTo (conns : List ℕ) (ws : ℕ) (m : OutMsg) : List (ℕ × OutMsg) :=
  if ws ∈ conns then [(ws, m)] else []

/-- Function removeSessionFromRoom: drops the session of a connection from its
room (removing the room when it empties) and from the sessions map. -/
def removeSessionFromRoom (st : ServiceState) (ws : ℕ) : ServiceState :=
  match mapLookup st.sessions ws with
  | some s =>
      let rp :=
        match mapLookup st.roomParticipants s.roomName with
        | some members =>
            let members2 := setDel members ws
            if members2.length = 0 then mapErase st.roomParticipants s.roomName
            else mapInsert st.roomParticipants s.roomName members2
        | none => st.roomParticipants
      { sessions := mapErase st.sessions ws, roomParticipants := rp }
  | none => st

/-- Function handleControlMessage: dispatch of start / stop / configure. -/
def handleControlMessage (st : ServiceState) (ws : ℕ) (msg : ControlMsg) (now : ℕ)
    (conns : List ℕ) : ServiceState × List (ℕ × OutMsg) :=
  match msg with
  | .start pid room tgt sr ch =>
      let session : TranslationSession :=
        { wsId := ws
          participantId := strOr pid (defaultUserTag ++ toString now)
          roomName := strOr room defaultRoomName
          targetLanguage := strOr tgt defaultTargetLang
          audioBuffer := []
          isProcessing := false
          lastProcessTime := now
          sampleRate := natOr sr DEFAULT_SAMPLE_RATE
          channels := natOr ch DEFAULT_CHANNELS }
      let sessions2 := mapInsert st.sessions ws session
      let rp1 :=
        if (mapLookup st.roomParticipants session.roomName).isNone then
          mapInsert st.roomParticipants session.roomName []
        else st.roomParticipants
      let members := (mapLookup rp1 session.roomName).getD []
      let rp2 := mapInsert rp1 session.roomName (setAdd members ws)
      let roomSize := ((mapLookup rp2 session.roomName).getD []).length
      ({ sessions := sessions2, roomParticipants := rp2 },
       sendMessageTo conns ws (OutMsg.started session.participantId session.targetLanguage roomSize))
  | .stop =>
      (removeSessionFromRoom st ws, sendMessageTo conns ws OutMsg.stopped)
  | .configure tgt sr =>
      match mapLookup st.sessions ws with
      | some s =>
          let s1 :=
            match tgt with
            | some t => if t = "" then s else { s with targetLanguage := t }
            | none => s
          let s2 :=
            match sr with
            | some n => if n = 0 then s1 else { s1 with sampleRate := n }
            | none => s1
          ({ st with sessions := mapInsert st.sessions ws s2 },
           sendMessageTo conns ws (OutMsg.configured s2.targetLanguage))
      | none => (st, [])
  | .other _ => (st, [])

/-- Function getOtherParticipantsInRoom: every member of the room other than
the speaker whose session exists and whose connection is still open. -/
def getOtherParticipantsInRoom (st : ServiceState) (speakerWs : ℕ) (roomName : String)
    (conns : List ℕ) : List TranslationSession :=
  match mapLookup st.roomParticipants roomName with
  | none => []
  | some members =>
      members.foldl
        (fun acc w =>
          if w ≠ speakerWs then
            match mapLookup st.sessions w with
            | some s => if w ∈ conns then acc ++ [s] else acc
            | none => acc
          else acc) []

/-- Little-endian signed 16-bit decoding of the byte stream (the readInt16LE
loop of processAudioBuffer); a trailing odd byte is dropped by the
floor(length / 2) bound.  Bytes are reduced mod 256 because a Buffer cell
holds one byte. -/
def bytesToInt16LE : List ℕ → List ℤ
  | lo :: hi :: rest =>
      (let v := lo % 256 + 256 * (hi % 256)
       if 32768 ≤ v then (v : ℤ) - 65536 else (v : ℤ)) :: bytesToInt16LE rest
  | _ => []

/-- Silence gate of processAudioBuffer: avgLevel = sumAbsSample / count < 100,
stated by cross-multiplication (count > 0) to stay kernel-executable; the
lemma avgLevelLt100_iff below ties this to the rational average.  With zero
samples the JS division yields NaN and NaN < 100 is false, hence the explicit
nonemptiness conjunct. -/
def avgLevelLt100 (samples : List ℤ) : Bool :=
  decide (samples.length ≠ 0) &&
    decide ((samples.map Int.natAbs).sum < 100 * samples.length)

/-- Rational average absolute sample level (avgLevel of processAudioBuffer). -/
def avgLevelQ (samples : List ℤ) : ℚ :=
  ((samples.map Int.natAbs).sum : ℚ) / (samples.length : ℚ)

/-- Outcomes of the two per-recipient AI calls made inside one iteration of
the fan-out loop (translation chat call and TTS call). -/
structure RecipOracle where
  chat : ChatOutcome
  tts : TtsOutcome
deriving Repr, DecidableEq

/-- Body of the try block of sendTranslationToRecipient; .error is a thrown
exception escaping the block.  The pair of counters records how many
translation and synthesis calls the iteration performed. -/
def sendTranslationToRecipientTry (speakerId originalText sourceLanguage : String)
    (recipient : TranslationSession) (o : RecipOracle) (conns : List ℕ) :
    Except String (List (ℕ × OutMsg)) × ℕ × ℕ :=
  let targetLanguage := recipient.targetLanguage
  if sourceLanguage = targetLanguage then
    (.ok (sendMessageTo conns recipient.wsId
        (OutMsg.incomingMessage speakerId originalText originalText sourceLanguage
          targetLanguage false)),
     0, 0)
  else
    let translation := translateText originalText sourceLanguage targetLanguage o.chat
    match textToSpeech o.tts with
    | .ok audio =>
        (.ok (sendMessageTo conns recipient.wsId
            (OutMsg.incomingMessage speakerId originalText translation.translatedText
              sourceLanguage targetLanguage true) ++
          (if recipient.wsId ∈ conns then [(recipient.wsId, OutMsg.audioBinary audio)] else [])),
         1, 1)
    | .error e => (.error e, 1, 1)

/-- Function sendTranslationToRecipient: the try block above with its catch,
which reports the failure to that recipient only. -/
def sendTranslationToRecipient (speakerId originalText sourceLanguage : String)
    (recipient : TranslationSession) (o : RecipOracle) (conns : List ℕ) :
    List (ℕ × OutMsg) × ℕ × ℕ :=
  match sendTranslationToRecipientTry speakerId originalText sourceLanguage recipient o conns with
  | (.ok msgs, tc, sc) => (msgs, tc, sc)
  | (.error e, tc, sc) =>
      (sendMessageTo conns recipient.wsId
        (OutMsg.errorMsg (translationFromTag ++ speakerId ++ failedColonTag ++ e)), tc, sc)

/-- The recipient loop of processAudioBuffer (for recipient of otherParticipants
await sendTranslationToRecipient).  Per-recipient message batches are kept
separate; the oracle argument gives the outcomes of the calls made by the i-th
iteration.  The two counters total the translation and synthesis calls. -/
def fanOutLoop (speakerId text sourceLanguage : String) (conns : List ℕ) :
    List TranslationSession → (ℕ → RecipOracle) → List (List (ℕ × OutMsg)) × ℕ × ℕ
  | [], _ => ([], 0, 0)
  | r :: rs, o =>
      let one := sendTranslationToRecipient speakerId text sourceLanguage r (o 0) conns
      let rest := fanOutLoop speakerId text sourceLanguage conns rs (fun k => o (k + 1))
      (one.1 :: rest.1, one.2.1 + rest.2.1, one.2.2 + rest.2.2)

/-- Result of one call of processAudioBuffer: the speaker session as left
behind, all outbound messages, and AI call counters. -/
structure RunResult where
  session : TranslationSession
  events : List (ℕ × OutMsg)
  transcribeCalls : ℕ
  translateCalls : ℕ
  ttsCalls : ℕ
deriving Repr, DecidableEq

/-- Function processAudioBuffer: re-entry guard, flag set, atomic buffer grab,
silence gate, transcription, short-text gate, speaker notice, fan-out; the
finally clause clears isProcessing on every path. -/
def processAudioBuffer (st : ServiceState) (s : TranslationSession) (now : ℕ)
    (conns : List ℕ) (transcribe : TranscribeOutcome) (recip : ℕ → RecipOracle) : RunResult :=
  if s.isProcessing || s.audioBuffer.isEmpty then
    { session := s, events := [], transcribeCalls := 0, translateCalls := 0, ttsCalls := 0 }
  else
    let s2 : TranslationSession :=
      { s with isProcessing := true, lastProcessTime := now, audioBuffer := [] }
    let combinedAudio := s.audioBuffer.flatten
    let others := getOtherParticipantsInRoom st s.wsId s.roomName conns
    let processingMsg := sendMessageTo conns s.wsId (OutMsg.processing combinedAudio.length)
    let samples := bytesToInt16LE combinedAudio
    if avgLevelLt100 samples then
      { session := { s2 with isProcessing := false }
        events := processingMsg ++ sendMessageTo conns s.wsId (OutMsg.noSpeech audioTooQuietText)
        transcribeCalls := 0, translateCalls := 0, ttsCalls := 0 }
    else
      match transcribe with
      | .err e =>
          { session := { s2 with isProcessing := false }
            events := processingMsg ++
              sendMessageTo conns s.wsId (OutMsg.errorMsg (translationFailedTag ++ e))
            transcribeCalls := 1, translateCalls := 0, ttsCalls := 0 }
      | .ok tr =>
          if tr.text.length < 2 then
            { session := { s2 with isProcessing := false }
              events := processingMsg ++ sendMessageTo conns s.wsId (OutMsg.noSpeech noSpeechText)
              transcribeCalls := 1, translateCalls := 0, ttsCalls := 0 }
          else
            let fan := fanOutLoop s.participantId tr.text tr.detectedLanguage conns others recip
            { session := { s2 with isProcessing := false }
              events := processingMsg ++
                sendMessageTo conns s.wsId (OutMsg.transcription tr.text tr.detectedLanguage) ++
                fan.1.flatten
              transcribeCalls := 1, translateCalls := fan.2.1, ttsCalls := fan.2.2 }

/-- Result of one handleAudioData call. -/
structure AudioStepResult where
  state : ServiceState
  events : List (ℕ × OutMsg)
  transcribeCalls : ℕ
  translateCalls : ℕ
  ttsCalls : ℕ
  startedRun : Bool
deriving Repr, DecidableEq

/-- Function handleAudioData: appends the frame to the session buffer and
starts a pipeline run when the session is not already processing, the buffer
holds at least MIN_AUDIO_SIZE bytes, and at least CHUNK_DURATION_MS elapsed
since the last process time. -/
def handleAudioData (st : ServiceState) (ws : ℕ) (audioData : List ℕ) (now : ℕ)
    (conns : List ℕ) (transcribe : TranscribeOutcome) (recip : ℕ → RecipOracle) :
    AudioStepResult :=
  match mapLookup st.sessions ws with
  | none =>
      { state := st, events := [], transcribeCalls := 0, translateCalls := 0, ttsCalls := 0,
        startedRun := false }
  | some s =>
      let s1 : TranslationSession := { s with audioBuffer := s.audioBuffer ++ [audioData] }
      let totalSize := (s1.audioBuffer.map List.length).sum
      let timeSinceLastProcess : ℤ := (now : ℤ) - (s1.lastProcessTime : ℤ)
      let st1 : ServiceState := { st with sessions := mapInsert st.sessions ws s1 }
      if !s1.isProcessing && decide (MIN_AUDIO_SIZE ≤ totalSize) &&
          decide ((CHUNK_DURATION_MS : ℤ) ≤ timeSinceLastProcess) then
        let run := processAudioBuffer st1 s1 now conns transcribe recip
        { state := { st1 with sessions := mapInsert st1.sessions ws run.session }
          events := run.events
          transcribeCalls := run.transcribeCalls, translateCalls := run.translateCalls,
          ttsCalls := run.ttsCalls, startedRun := true }
      else
        { state := st1, events := [], transcribeCalls := 0, translateCalls := 0, ttsCalls := 0,
          startedRun := false }

/-- One inbound WebSocket frame: a text frame or a binary frame. -/
inductive WsData where
  | text (s : String)
  | binary (bytes : List ℕ)
deriving Repr, DecidableEq

/-- The connection message handler of initTranslationWebSocket: a text frame is
parsed as JSON; a binary frame whose first byte is 0x7b (123, the opening
brace) is parsed as JSON too; any other binary frame is audio.  The parse
oracle carries the JSON.parse result (none = throw, caught by the handler). -/
def handleWsMessage (st : ServiceState) (ws : ℕ) (d : WsData) (parse : Option ControlMsg)
    (now : ℕ) (conns : List ℕ) (transcribe : TranscribeOutcome) (recip : ℕ → RecipOracle) :
    ServiceState × List (ℕ × OutMsg) :=
  match d with
  | .text _ =>
      match parse with
      | some m => handleControlMessage st ws m now conns
      | none => (st, sendMessageTo conns ws (OutMsg.errorMsg failedToProcessText))
  | .binary bytes =>
      if bytes.head? = some 123 then
        match parse with
        | some m => handleControlMessage st ws m now conns
        | none => (st, sendMessageTo conns ws (OutMsg.errorMsg failedToProcessText))
      else
        let r := handleAudioData st ws bytes now conns transcribe recip
        (r.state, r.events)

/-! ## Optimized translation worker (translationWorkerOptimized.ts)

The worker connects to a LiveKit room; remote participants carry JSON metadata
with their target language.  What is embedded is the cost-optimisation logic:
the language cache with its 5-minute TTL, the distinct-target-language
computation, the skip when no translation is needed, and the per-distinct-
language pipeline loop.  runTranslationPipeline itself is external to this
logic and is recorded by the list of languages it is invoked for. -/

/-- Participant metadata stored in LiveKit (interface ParticipantMetadata). -/
structure ParticipantMetadata where
  targetLanguage : String
  isTranslatedTrack : Bool
deriving Repr, DecidableEq

/-- A remote participant as seen by the worker: identity plus parsed metadata
(none models missing or unparseable metadata). -/
structure RemoteParticipant where
  identity : String
  metadata : Option ParticipantMetadata
deriving Repr, DecidableEq

/-- One language cache entry (interface LanguageCache); lastUpdated is a
millisecond timestamp. -/
structure LanguageCache where
  participantId : String
  detectedLanguage : String
  confidence : ℚ
  lastUpdated : ℕ
deriving Repr, DecidableEq

/-- Cache TTL: five minutes in milliseconds (constant CACHE_DURATION_MS). -/
def CACHE_DURATION_MS : ℕ := 5 * 60 * 1000

/-- Method isCacheValid: age strictly below the TTL. -/
def isCacheValid (cache : LanguageCache) (now : ℕ) : Bool :=
  decide ((now : ℤ) - (cache.lastUpdated : ℤ) < (CACHE_DURATION_MS : ℤ))

/-- Method getTargetLanguages: distinct target languages of the other remote
participants whose metadata carries a truthy targetLanguage and which are not
translated tracks (a JS Set keeps first-insertion order). -/
def getTargetLanguages (participants : List RemoteParticipant)
    (excludeParticipantId : String) : List String :=
  participants.foldl
    (fun langs p =>
      if p.identity = excludeParticipantId then langs
      else
        match p.metadata with
        | some m =>
            if m.targetLanguage ≠ "" ∧ m.isTranslatedTrack = false then
              setAdd langs m.targetLanguage
            else langs
        | none => langs) []

/-- The needsTranslation check followed by the languagesToTranslate filter of
processAudioBufferOptimized: an empty list when every listener already speaks
the detected language, otherwise the differing languages. -/
def optPipelineLangs (targetLanguages : List String) (detected : String) : List String :=
  if targetLanguages.all (fun l => decide (l = detected)) then []
  else targetLanguages.filter (fun l => !(decide (l = detected)))

/-- Result of one processAudioBufferOptimized call: the cache as left behind,
the number of Whisper detection calls, the language the run worked with, and
the list of languages the full pipeline was run for. -/
structure OptRunResult where
  languageCache : List (String × LanguageCache)
  detectionCalls : ℕ
  usedLanguage : Option String
  pipelineLangs : List String
deriving Repr, DecidableEq

/-- Method processAudioBufferOptimized (cache and dispatch logic): skip when
no target languages exist; reuse a valid cache entry; otherwise run Whisper,
refresh the cache on success and abort on failure; then run the pipeline once
per distinct differing target language. -/
def processAudioBufferOptimized (cache : List (String × LanguageCache))
    (participants : List RemoteParticipant) (audioPid : String) (now : ℕ)
    (transcribe : TranscribeOutcome) : OptRunResult :=
  let targetLanguages := getTargetLanguages participants audioPid
  if targetLanguages.isEmpty then
    { languageCache := cache, detectionCalls := 0, usedLanguage := none, pipelineLangs := [] }
  else
    let hit :=
      match mapLookup cache audioPid with
      | some c => if isCacheValid c now then some c.detectedLanguage else none
      | none => none
    match hit with
    | some lang =>
        { languageCache := cache, detectionCalls := 0, usedLanguage := some lang
          pipelineLangs := optPipelineLangs targetLanguages lang }
    | none =>
        match transcribe with
        | .err _ =>
            { languageCache := cache, detectionCalls := 1, usedLanguage := none
              pipelineLangs := [] }
        | .ok tr =>
            let entry : LanguageCache :=
              { participantId := audioPid
                detectedLanguage := tr.detectedLanguage
                confidence := tr.confidence.getD 1
                lastUpdated := now }
            { languageCache := mapInsert cache audioPid entry
              detectionCalls := 1
              usedLanguage := some tr.detectedLanguage
              pipelineLangs := optPipelineLangs targetLanguages tr.detectedLanguage }

/-- Mutable state of the worker relevant to the claims. -/
structure WorkerState where
  audioBuffers : List (String × ParticipantAudioBuffer)
  languageCache : List (String × LanguageCache)
  processingQueue : List String
deriving Repr, DecidableEq

/-- Result of one handleAudioFrame call of the worker. -/
structure FrameResult where
  buffer : ParticipantAudioBuffer
  processingQueue : List String
  languageCache : List (String × LanguageCache)
  detectionCalls : ℕ
  processed : Bool
deriving Repr, DecidableEq

/-- Method handleAudioFrame (per-participant part): add the frame; when the
buffer is ready and the participant is not queued, enqueue, flush, process a
non-null payload (dequeuing afterwards via finally) and just dequeue on a null
(silent) flush. -/
def handleAudioFrame (buffer : ParticipantAudioBuffer) (queue : List String)
    (cache : List (String × LanguageCache)) (participants : List RemoteParticipant)
    (pid : String) (frame : List ℤ) (now : ℕ) (transcribe : TranscribeOutcome) : FrameResult :=
  let b1 := buffer.addFrame frame
  if b1.isReady then
    if pid ∈ queue then
      { buffer := b1, processingQueue := queue, languageCache := cache
        detectionCalls := 0, processed := false }
    else
      let queue1 := setAdd queue pid
      let flushed := b1.flush now
      match flushed.1 with
      | some payload =>
          let r := processAudioBufferOptimized cache participants payload.participantId now
            transcribe
          { buffer := flushed.2, processingQueue := setDel queue1 pid
            languageCache := r.languageCache, detectionCalls := r.detectionCalls
            processed := true }
      | none =>
          { buffer := flushed.2, processingQueue := setDel queue1 pid
            languageCache := cache, detectionCalls := 0, processed := false }
  else
    { buffer := b1, processingQueue := queue, languageCache := cache
      detectionCalls := 0, processed := false }

/-- Method handleParticipantDisconnected: delete the participant's audio
buffer, language cache entry, and queue membership. -/
def handleParticipantDisconnected (st : WorkerState) (pid : String) : WorkerState :=
  { audioBuffers := mapErase st.audioBuffers pid
    languageCache := mapErase st.languageCache pid
    processingQueue := setDel st.processingQueue pid }

/-! ## Claim-side helpers and concrete instances

The spec-side readiness definition below (specIsReady) follows the words of
the specification, for comparison with the implementation's isReady; the
remaining definitions are concrete states used to exercise the model. -/

/-- Readiness as the specification words it: accumulated amount at least the
threshold AND elapsed wall-clock time since the previous flush at least the
minimum interval. -/
def specIsReady (accumulated threshold : ℕ) (elapsedMs minIntervalMs : ℤ) : Bool :=
  decide (threshold ≤ accumulated) && decide (minIntervalMs ≤ elapsedMs)

/-- Distinct target languages demanded by a recipient list, the detected
source language excluded (the N of the fan-out claim). -/
def distinctTargetsOf (others : List TranslationSession) (sourceLanguage : String) :
    List String :=
  others.foldl
    (fun acc r => if r.targetLanguage = sourceLanguage then acc else setAdd acc r.targetLanguage) []

/-- All binary audio payloads delivered to one connection, in order. -/
def audioSentTo (events : List (ℕ × OutMsg)) (ws : ℕ) : List (List ℕ) :=
  events.foldl
    (fun acc e =>
      if e.1 = ws then
        match e.2 with
        | OutMsg.audioBinary a => acc ++ [a]
        | _ => acc
      else acc) []

/-- Language code en. -/
def langEn : String := "en"

/-- Language code es. -/
def langEs : String := "es"

/-- Room name used by the concrete instances. -/
def roomAName : String := "A"

/-- Speaker participant id. -/
def pidS : String := "S"

/-- First listener participant id. -/
def pidL1 : String := "L1"

/-- Second listener participant id. -/
def pidL2 : String := "L2"

/-- Replacement participant id for the duplicate-start instance. -/
def pidS2 : String := "S2"

/-- Participant id of the small audio-buffer instances. -/
def pidP : String := "p"

/-- Transcribed text of the concrete pipeline runs. -/
def textHello : String := "hello"

/-- Speaker session: in room A, hears en, with two buffered audio bytes. -/
def sampleSpeaker : TranslationSession :=
  { wsId := 1, participantId := pidS, roomName := roomAName, targetLanguage := langEn,
    audioBuffer := [[0, 1]], isProcessing := false, lastProcessTime := 0,
    sampleRate := DEFAULT_SAMPLE_RATE, channels := DEFAULT_CHANNELS }

/-- First listener session: in room A, hears es. -/
def sampleL1 : TranslationSession :=
  { wsId := 2, participantId := pidL1, roomName := roomAName, targetLanguage := langEs,
    audioBuffer := [], isProcessing := false, lastProcessTime := 0,
    sampleRate := DEFAULT_SAMPLE_RATE, channels := DEFAULT_CHANNELS }

/-- Second listener session: in room A, also hears es. -/
def sampleL2 : TranslationSession :=
  { wsId := 3, participantId := pidL2, roomName := roomAName, targetLanguage := langEs,
    audioBuffer := [], isProcessing := false, lastProcessTime := 0,
    sampleRate := DEFAULT_SAMPLE_RATE, channels := DEFAULT_CHANNELS }

/-- Service state with the speaker and the two es listeners in room A. -/
def sampleState : ServiceState :=
  { sessions := [(1, sampleSpeaker), (2, sampleL1), (3, sampleL2)],
    roomParticipants := [(roomAName, [1, 2, 3])] }

/-- Speaker session mid-run: its in-flight flag is set. -/
def busySpeaker : TranslationSession :=
  { sampleSpeaker with isProcessing := true }

/-- Service state whose speaker session is mid-run. -/
def busyState : ServiceState :=
  { sessions := [(1, busySpeaker), (2, sampleL1), (3, sampleL2)],
    roomParticipants := [(roomAName, [1, 2, 3])] }

/-- Service state with no session at all. -/
def emptyServiceState : ServiceState :=
  { sessions := [], roomParticipants := [] }

/-- Successful transcription outcome: hello, detected language en. -/
def sampleTranscribeOk : TranscribeOutcome :=
  .ok { text := textHello, detectedLanguage := langEn, confidence := none }

/-- Per-recipient oracle: all calls succeed, and the TTS audio of the first
fan-out iteration differs from the audio of every later iteration. -/
def sampleOracle : ℕ → RecipOracle :=
  fun i =>
    if i = 0 then { chat := ChatOutcome.ok none, tts := TtsOutcome.ok [1] }
    else { chat := ChatOutcome.ok none, tts := TtsOutcome.ok [2] }

/-- Transcription result used by concrete runs: hello in en. -/
def sampleTr : TranscriptionResult :=
  { text := textHello, detectedLanguage := langEn, confidence := none }

/-- Participant id of the remote listener of the worker instances. -/
def pidQ : String := "Q"

/-- Remote participant targeting es (not a translated track). -/
def sampleRemoteQ : RemoteParticipant :=
  { identity := pidQ, metadata := some { targetLanguage := langEs, isTranslatedTrack := false } }

/-- Language cache entry for participant p detected as en at time 0. -/
def sampleCacheEntry : LanguageCache :=
  { participantId := pidP, detectedLanguage := langEn, confidence := 1, lastUpdated := 0 }

/-- Worker state holding only the cache entry for participant p. -/
def sampleWorkerState : WorkerState :=
  { audioBuffers := [], languageCache := [(pidP, sampleCacheEntry)], processingQueue := [] }

/-- Small audio accumulator: sample rate 2, so the readiness target is 3
samples (floor(2 * 1500 / 1000)). -/
def smallBuffer : ParticipantAudioBuffer :=
  mkParticipantAudioBuffer pidP pidP roomAName 2 1

/-! ## Helper lemmas -/

theorem mapLookup_mapInsert {κ α : Type} [DecidableEq κ]
    (m : List (κ × α)) (k j : κ) (v : α) :
    mapLookup (mapInsert m k v) j = if j = k then some v else mapLookup m j := by
  induction m with
  | nil =>
      by_cases h : j = k
      · subst h; simp [mapInsert, mapLookup]
      · have h2 : ¬ k = j := fun hc => h hc.symm
        simp [mapInsert, mapLookup, h, h2]
  | cons p ps ih =>
      by_cases hp : p.1 = k
      · by_cases h : j = k
        · subst h; simp [mapInsert, mapLookup, hp]
        · have h2 : ¬ k = j := fun hc => h hc.symm
          have h3 : ¬ p.1 = j := fun hc => h (by rw [← hc, hp])
          simp [mapInsert, mapLookup, hp, h, h2, h3]
      · by_cases h : j = k
        · subst h
          have h3 : ¬ p.1 = j := hp
          simp [mapInsert, mapLookup, hp, h3, ih]
        · by_cases hq : p.1 = j <;> simp [mapInsert, mapLookup, hp, hq, ih, h]

theorem mapLookup_eq_none_of_not_mem {κ α : Type} [DecidableEq κ]
    (m : List (κ × α)) (k : κ) (h : k ∉ m.map Prod.fst) : mapLookup m k = none := by
  induction m with
  | nil => rfl
  | cons p ps ih =>
      have hp : ¬ p.1 = k := fun hc => h (by simp [hc])
      simp only [mapLookup, hp, if_false]
      exact ih (fun hx => h (by simp [hx]))

theorem mapLookup_mapErase_ne {κ α : Type} [DecidableEq κ]
    (m : List (κ × α)) (k j : κ) (h : j ≠ k) :
    mapLookup (mapErase m k) j = mapLookup m j := by
  induction m with
  | nil => simp [mapErase]
  | cons p ps ih =>
      by_cases hp : p.1 = k
      · have hpj : ¬ p.1 = j := fun hc => h (by rw [← hc, hp])
        have h2 : ¬ k = j := fun hc => h hc.symm
        simp [mapErase, mapLookup, hp, hpj, h2]
      · by_cases hq : p.1 = j <;> simp [mapErase, mapLookup, hp, hq, ih, h]

theorem mapLookup_mapErase_self {κ α : Type} [DecidableEq κ]
    (m : List (κ × α)) (k : κ) (hnd : mapNodup m) :
    mapLookup (mapErase m k) k = none := by
  induction m with
  | nil => rfl
  | cons p ps ih =>
      have hnd2 : p.1 ∉ ps.map Prod.fst ∧ (ps.map Prod.fst).Nodup := by
        have h0 := hnd
        unfold mapNodup at h0
        rw [List.map_cons] at h0
        exact List.nodup_cons.mp h0
      by_cases hp : p.1 = k
      · subst hp
        simpa [mapErase] using mapLookup_eq_none_of_not_mem ps p.1 hnd2.1
      · simp [mapErase, mapLookup, hp, ih hnd2.2]

/-- Justification for the squared silence gate: for nonnegative mean square e,
sqrt e < 0.01 holds exactly when e < 0.0001. -/
theorem sqrt_lt_threshold_iff (e : ℚ) (he : 0 ≤ e) :
    Real.sqrt (e : ℝ) < 1 / 100 ↔ e < 1 / 10000 := by
  have h1 : ((1 : ℝ) / 100) = Real.sqrt (1 / 10000) := by
    rw [show ((1 : ℝ) / 10000) = (1 / 100) ^ 2 by norm_num]
    exact (Real.sqrt_sq (by norm_num)).symm
  rw [h1, Real.sqrt_lt_sqrt_iff (by exact_mod_cast he),
      show ((1 : ℝ) / 10000) = ((1 / 10000 : ℚ) : ℝ) by norm_num]
  exact Rat.cast_lt

theorem sum_sq_div_cast (samples : List ℤ) :
    (samples.map (fun x : ℤ => ((x : ℚ) / 32768) ^ 2)).sum =
      (((samples.map (fun x => x.natAbs * x.natAbs)).sum : ℕ) : ℚ) / 1073741824 := by
  induction samples with
  | nil => simp
  | cons a as ih =>
      have hcast : (((a.natAbs * a.natAbs : ℕ)) : ℚ) = (a : ℚ) * (a : ℚ) := by
        push_cast [Int.cast_natAbs]
        rw [abs_mul_abs_self]
      simp only [List.map_cons, List.sum_cons, ih, Nat.cast_add, hcast]
      field_simp
      ring

theorem calculateAudioEnergySq_nonneg (samples : List ℤ) :
    0 ≤ calculateAudioEnergySq samples := by
  unfold calculateAudioEnergySq
  split
  · exact le_refl 0
  · apply div_nonneg
    · apply List.sum_nonneg
      intro x hx
      obtain ⟨y, _, rfl⟩ := List.mem_map.mp hx
      positivity
    · positivity

/-- The executable silence gate agrees with the rational mean-square test of
calculateAudioEnergy against the 0.01 threshold. -/
theorem isSilentAudio_iff (samples : List ℤ) :
    isSilentAudio samples = true ↔ calculateAudioEnergySq samples < silenceThresholdSq := by
  unfold isSilentAudio calculateAudioEnergySq silenceThresholdSq
  by_cases h : samples.length = 0
  · rw [if_pos h, if_pos h]
    norm_num
  · rw [if_neg h, if_neg h, decide_eq_true_eq, sum_sq_div_cast]
    have hn : 0 < (samples.length : ℚ) := by
      exact_mod_cast Nat.pos_of_ne_zero h
    rw [div_div, div_lt_div_iff₀ (mul_pos (by norm_num) hn) (by norm_num), one_mul]
    constructor
    · intro h2; exact_mod_cast h2
    · intro h2; exact_mod_cast h2

/-- The executable loudness gate agrees with the rational average level. -/
theorem avgLevelLt100_iff (samples : List ℤ) :
    avgLevelLt100 samples = true ↔ samples.length ≠ 0 ∧ avgLevelQ samples < 100 := by
  unfold avgLevelLt100 avgLevelQ
  by_cases h : samples.length = 0
  · simp [h]
  · have hn : 0 < (samples.length : ℚ) := by
      exact_mod_cast Nat.pos_of_ne_zero h
    simp only [Bool.and_eq_true, decide_eq_true_eq, div_lt_iff₀ hn]
    constructor
    · rintro ⟨h1, h2⟩
      refine ⟨h1, ?_⟩
      exact_mod_cast h2
    · rintro ⟨h1, h2⟩
      refine ⟨h1, ?_⟩
      exact_mod_cast h2

theorem sendTranslationToRecipient_counts (sp text src : String)
    (r : TranslationSession) (o : RecipOracle) (conns : List ℕ) :
    (sendTranslationToRecipient sp text src r o conns).2 =
      if src = r.targetLanguage then (0, 0) else (1, 1) := by
  unfold sendTranslationToRecipient sendTranslationToRecipientTry
  by_cases h : src = r.targetLanguage
  · simp [h]
  · simp only [h, if_false]
    cases o.tts with
    | ok audio => simp [textToSpeech]
    | err m => simp [textToSpeech]

theorem fanOutLoop_counts (sp text src : String) (conns : List ℕ)
    (recips : List TranslationSession) (o : ℕ → RecipOracle) :
    (fanOutLoop sp text src conns recips o).2.1 =
      (recips.filter (fun r => !(decide (r.targetLanguage = src)))).length ∧
    (fanOutLoop sp text src conns recips o).2.2 =
      (recips.filter (fun r => !(decide (r.targetLanguage = src)))).length := by
  induction recips generalizing o with
  | nil => simp [fanOutLoop]
  | cons r rs ih =>
      have hc := sendTranslationToRecipient_counts sp text src r (o 0) conns
      rcases ih (fun k => o (k + 1)) with ⟨ih1, ih2⟩
      by_cases h : src = r.targetLanguage
      · have hr : (!(decide (r.targetLanguage = src))) = false := by simp [h.symm]
        constructor
        · simp only [fanOutLoop]
          rw [hc, if_pos h]
          simpa [List.filter_cons, hr] using ih1
        · simp only [fanOutLoop]
          rw [hc, if_pos h]
          simpa [List.filter_cons, hr] using ih2
      · have hr : (!(decide (r.targetLanguage = src))) = true := by
          simp only [Bool.not_eq_true', decide_eq_false_iff_not]
          exact fun hc2 => h hc2.symm
        constructor
        · simp only [fanOutLoop]
          rw [hc, if_neg h]
          simp only [List.filter_cons, hr, if_true, List.length_cons]
          rw [ih1]
          simp [Nat.add_comm]
        · simp only [fanOutLoop]
          rw [hc, if_neg h]
          simp only [List.filter_cons, hr, if_true, List.length_cons]
          rw [ih2]
          simp [Nat.add_comm]

theorem fanOutLoop_getD_congr (sp text src : String) (conns : List ℕ)
    (recips : List TranslationSession) (o1 o2 : ℕ → RecipOracle) (i : ℕ)
    (h : o1 i = o2 i) :
    (fanOutLoop sp text src conns recips o1).1.getD i [] =
      (fanOutLoop sp text src conns recips o2).1.getD i [] := by
  induction recips generalizing o1 o2 i with
  | nil => simp [fanOutLoop]
  | cons r rs ih =>
      cases i with
      | zero => simp [fanOutLoop, h]
      | succ k =>
          simp only [fanOutLoop, List.getD_cons_succ]
          exact ih (fun n => o1 (n + 1)) (fun n => o2 (n + 1)) k h

theorem optPipelineLangs_eq_filter (ts : List String) (d : String) :
    optPipelineLangs ts d = ts.filter (fun l => !(decide (l = d))) := by
  unfold optPipelineLangs
  split
  · next h =>
      symm
      rw [List.filter_eq_nil_iff]
      intro a ha
      have h2 := List.all_eq_true.mp h a ha
      simp only [decide_eq_true_eq] at h2
      simp [h2]
  · rfl

theorem setAdd_nodup {α : Type} [DecidableEq α] (s : List α) (x : α) (h : s.Nodup) :
    (setAdd s x).Nodup := by
  unfold setAdd
  split
  · exact h
  · next hx => simp [List.nodup_append, h, hx]

theorem getTargetLanguages_foldl_nodup (ex : String) (ps : List RemoteParticipant)
    (init : List String) (h : init.Nodup) :
    (ps.foldl
      (fun langs p =>
        if p.identity = ex then langs
        else
          match p.metadata with
          | some m =>
              if m.targetLanguage ≠ "" ∧ m.isTranslatedTrack = false then
                setAdd langs m.targetLanguage
              else langs
          | none => langs) init).Nodup := by
  induction ps generalizing init with
  | nil => simpa using h
  | cons p ps ih =>
      simp only [List.foldl_cons]
      apply ih
      by_cases hid : p.identity = ex
      · simpa [hid] using h
      · cases hm : p.metadata with
        | none => simpa [hid, hm] using h
        | some m =>
            by_cases hcond : m.targetLanguage ≠ "" ∧ m.isTranslatedTrack = false
            · simpa [hid, hm, hcond] using setAdd_nodup _ _ h
            · simpa [hid, hm, hcond] using h

theorem getTargetLanguages_nodup (parts : List RemoteParticipant) (ex : String) :
    (getTargetLanguages parts ex).Nodup := by
  unfold getTargetLanguages
  exact getTargetLanguages_foldl_nodup ex parts [] (by simp)

/-! ## Claim theorems -/

/-- Claim C1, counterexample: room A holds a speaker with detected language en
and two listeners who both target es, so the other members require exactly one
distinct target language; the fan-out of processAudioBuffer nevertheless makes
2 translation calls and 2 synthesis calls (one per recipient), and the two
recipients receive different audio bytes when the two independent TTS calls
return different content — not byte-identical content. -/
theorem c1_counterexample :
    (distinctTargetsOf (getOtherParticipantsInRoom sampleState 1 roomAName [1, 2, 3])
        langEn).length = 1 ∧
    (processAudioBuffer sampleState sampleSpeaker 5000 [1, 2, 3] sampleTranscribeOk
        sampleOracle).translateCalls = 2 ∧
    (processAudioBuffer sampleState sampleSpeaker 5000 [1, 2, 3] sampleTranscribeOk
        sampleOracle).ttsCalls = 2 ∧
    audioSentTo (processAudioBuffer sampleState sampleSpeaker 5000 [1, 2, 3] sampleTranscribeOk
        sampleOracle).events 2 ≠
      audioSentTo (processAudioBuffer sampleState sampleSpeaker 5000 [1, 2, 3] sampleTranscribeOk
        sampleOracle).events 3 := by
  decide

/-- Claim C1, amended: in the WebSocket fan-out (processAudioBuffer), a
successful run makes one translation call and one synthesis call per recipient
whose target language differs from the detected source language — not one per
distinct language — so recipients sharing a target language receive
independently generated content; the once-per-distinct-required-language
behaviour holds only in the optimized worker, whose pipeline loop runs exactly
over the duplicate-free list of required target languages differing from the
detected language. -/
theorem c1_amended (st : ServiceState) (s : TranslationSession) (now : ℕ) (conns : List ℕ)
    (tr : TranscriptionResult) (recip : ℕ → RecipOracle)
    (cache : List (String × LanguageCache)) (parts : List RemoteParticipant)
    (pid : String) (now2 : ℕ) (tr2 : TranscriptionResult)
    (hflag : s.isProcessing = false) (hbuf : s.audioBuffer ≠ [])
    (hloud : avgLevelLt100 (bytesToInt16LE s.audioBuffer.flatten) = false)
    (hlen : ¬ tr.text.length < 2)
    (hmiss : mapLookup cache pid = none)
    (hne : getTargetLanguages parts pid ≠ []) :
    (processAudioBuffer st s now conns (.ok tr) recip).translateCalls =
      ((getOtherParticipantsInRoom st s.wsId s.roomName conns).filter
        (fun r => !(decide (r.targetLanguage = tr.detectedLanguage)))).length ∧
    (processAudioBuffer st s now conns (.ok tr) recip).ttsCalls =
      ((getOtherParticipantsInRoom st s.wsId s.roomName conns).filter
        (fun r => !(decide (r.targetLanguage = tr.detectedLanguage)))).length ∧
    (processAudioBufferOptimized cache parts pid now2 (.ok tr2)).pipelineLangs =
      (getTargetLanguages parts pid).filter (fun l => !(decide (l = tr2.detectedLanguage))) ∧
    (getTargetLanguages parts pid).Nodup := by
  have hbe : s.audioBuffer.isEmpty = false := by
    cases hb2 : s.audioBuffer with
    | nil => exact absurd hb2 hbuf
    | cons a l => rfl
  have hne2 : (getTargetLanguages parts pid).isEmpty = false := by
    cases hg : getTargetLanguages parts pid with
    | nil => exact absurd hg hne
    | cons a l => rfl
  refine ⟨?_, ?_, ?_, getTargetLanguages_nodup parts pid⟩
  · simp [processAudioBuffer, hflag, hbe, hloud, hlen]
    exact (fanOutLoop_counts s.participantId tr.text tr.detectedLanguage conns
      (getOtherParticipantsInRoom st s.wsId s.roomName conns) recip).1
  · simp [processAudioBuffer, hflag, hbe, hloud, hlen]
    exact (fanOutLoop_counts s.participantId tr.text tr.detectedLanguage conns
      (getOtherParticipantsInRoom st s.wsId s.roomName conns) recip).2
  · simp [processAudioBufferOptimized, hne2, hmiss, optPipelineLangs_eq_filter]

theorem processAudioBuffer_clears_flag (st : ServiceState) (s : TranslationSession) (now : ℕ)
    (conns : List ℕ) (tr : TranscribeOutcome) (recip : ℕ → RecipOracle)
    (hp : s.isProcessing = false) :
    (processAudioBuffer st s now conns tr recip).session.isProcessing = false := by
  unfold processAudioBuffer
  dsimp only
  split
  · exact hp
  · repeat' split
    all_goals rfl

/-- Claim C2: while a session's in-flight flag is set, a further audio frame —
even one meeting the size and interval readiness conditions — starts no new
pipeline run and triggers no transcription call; and a run started on a
session whose flag is clear leaves the flag clear on every exit path
(silence skip, transcription error, short-text skip, and full fan-out). -/
theorem c2_single_run_flag_cleared (st : ServiceState) (ws : ℕ) (s : TranslationSession)
    (audioData : List ℕ) (now : ℕ) (conns : List ℕ) (tr : TranscribeOutcome)
    (recip : ℕ → RecipOracle) (hs : mapLookup st.sessions ws = some s) :
    (s.isProcessing = true →
      (handleAudioData st ws audioData now conns tr recip).transcribeCalls = 0 ∧
      (handleAudioData st ws audioData now conns tr recip).startedRun = false) ∧
    (s.isProcessing = false →
      (processAudioBuffer st s now conns tr recip).session.isProcessing = false) := by
  constructor
  · intro hp
    unfold handleAudioData
    rw [hs]
    simp [hp]
  · intro hp
    exact processAudioBuffer_clears_flag st s now conns tr recip hp

/-- Witness for C2 at concrete inputs: the busy state ignores a new frame and
an idle speaker's run ends with the flag cleared. -/
theorem c2_witness :
    mapLookup busyState.sessions 1 = some busySpeaker ∧
    busySpeaker.isProcessing = true ∧
    sampleSpeaker.isProcessing = false ∧
    ((handleAudioData busyState 1 [0] 9 [1, 2, 3] sampleTranscribeOk
        sampleOracle).transcribeCalls = 0 ∧
      (handleAudioData busyState 1 [0] 9 [1, 2, 3] sampleTranscribeOk
        sampleOracle).startedRun = false) ∧
    (processAudioBuffer sampleState sampleSpeaker 9 [1, 2, 3] sampleTranscribeOk
        sampleOracle).session.isProcessing = false :=
  ⟨by decide, by decide, by decide,
   (c2_single_run_flag_cleared busyState 1 busySpeaker [0] 9 [1, 2, 3] sampleTranscribeOk
      sampleOracle (by decide)).1 (by decide),
   (c2_single_run_flag_cleared sampleState 1 sampleSpeaker [0] 9 [1, 2, 3] sampleTranscribeOk
      sampleOracle (by decide)).2 (by decide)⟩

/-- Claim C3, counterexample: the readiness check of ParticipantAudioBuffer
consults no clock at all — a buffer whose readiness target is 3 samples is
ready immediately after 3 samples arrive, with zero milliseconds elapsed since
any previous flush, although the specified readiness (threshold reached AND
minimum interval elapsed) is false at zero elapsed time. -/
theorem c3_counterexample :
    ((smallBuffer.addFrame [0, 0, 1]).isReady = true) ∧
    specIsReady (smallBuffer.addFrame [0, 0, 1]).totalSamples
      (smallBuffer.addFrame [0, 0, 1]).targetSamples 0 (CHUNK_DURATION_MS : ℤ) = false := by
  decide

/-- Claim C3, amended: ParticipantAudioBuffer.isReady is true exactly when the
accumulated sample count reaches the duration-based target, with no
minimum-interval condition; the wall-clock interval condition lives in the
WebSocket service only, where handleAudioData starts a run exactly when the
session is not in flight AND the buffered size reaches MIN_AUDIO_SIZE AND at
least CHUNK_DURATION_MS elapsed since the last process time. -/
theorem c3_amended (b : ParticipantAudioBuffer) (st : ServiceState) (ws : ℕ)
    (s : TranslationSession) (audioData : List ℕ) (now : ℕ) (conns : List ℕ)
    (tr : TranscribeOutcome) (recip : ℕ → RecipOracle)
    (hs : mapLookup st.sessions ws = some s) :
    (b.isReady = true ↔ b.targetSamples ≤ b.totalSamples) ∧
    ((handleAudioData st ws audioData now conns tr recip).startedRun = true ↔
      (s.isProcessing = false ∧
       MIN_AUDIO_SIZE ≤ ((s.audioBuffer ++ [audioData]).map List.length).sum ∧
       (CHUNK_DURATION_MS : ℤ) ≤ (now : ℤ) - (s.lastProcessTime : ℤ))) := by
  constructor
  · simp [ParticipantAudioBuffer.isReady]
  · simp only [handleAudioData, hs]
    split
    · next hcond =>
        simp only [Bool.and_eq_true, Bool.not_eq_true', decide_eq_true_eq] at hcond
        constructor
        · intro _
          exact ⟨hcond.1.1, hcond.1.2, hcond.2⟩
        · intro _
          rfl
    · next hcond =>
        simp only [Bool.and_eq_true, Bool.not_eq_true', decide_eq_true_eq] at hcond
        constructor
        · intro hfalse
          exact absurd hfalse (by simp)
        · intro hrhs
          exact absurd ⟨⟨hrhs.1, hrhs.2.1⟩, hrhs.2.2⟩ hcond

/-- Witness for the amended C3 at concrete inputs. -/
theorem c3_witness :
    mapLookup sampleState.sessions 1 = some sampleSpeaker ∧
    ((smallBuffer.isReady = true ↔ smallBuffer.targetSamples ≤ smallBuffer.totalSamples) ∧
     ((handleAudioData sampleState 1 [0] 9 [1, 2, 3] sampleTranscribeOk
          sampleOracle).startedRun = true ↔
       (sampleSpeaker.isProcessing = false ∧
        MIN_AUDIO_SIZE ≤ ((sampleSpeaker.audioBuffer ++ [[0]]).map List.length).sum ∧
        (CHUNK_DURATION_MS : ℤ) ≤ (9 : ℤ) - (sampleSpeaker.lastProcessTime : ℤ)))) :=
  ⟨by decide,
   c3_amended smallBuffer sampleState 1 sampleSpeaker [0] 9 [1, 2, 3] sampleTranscribeOk
     sampleOracle (by decide)⟩

/-- Claim C4: flushing accumulated audio whose average energy — the RMS of the
samples normalized to [-1, 1], compared here through its square against the
squared 0.01 threshold — is below the silence threshold returns no payload
(none), still clears the buffer, and the worker frame handler performs no
transcription call for that audio. -/
theorem c4_silent_flush (b : ParticipantAudioBuffer) (frame : List ℤ) (queue : List String)
    (cache : List (String × LanguageCache)) (parts : List RemoteParticipant) (pid : String)
    (now : ℕ) (tr : TranscribeOutcome)
    (h0 : (b.addFrame frame).totalSamples ≠ 0)
    (hsil : calculateAudioEnergySq (b.addFrame frame).samples.flatten < silenceThresholdSq) :
    ((b.addFrame frame).flush now).1 = none ∧
    ((b.addFrame frame).flush now).2.samples = [] ∧
    ((b.addFrame frame).flush now).2.totalSamples = 0 ∧
    (handleAudioFrame b queue cache parts pid frame now tr).detectionCalls = 0 := by
  have hsb : isSilentAudio (b.addFrame frame).samples.flatten = true :=
    (isSilentAudio_iff _).mpr hsil
  have hflush1 : ((b.addFrame frame).flush now).1 = none := by
    simp [ParticipantAudioBuffer.flush, h0, hsb]
  refine ⟨hflush1, ?_, ?_, ?_⟩
  · simp [ParticipantAudioBuffer.flush, h0, hsb]
  · simp [ParticipantAudioBuffer.flush, h0, hsb]
  · unfold handleAudioFrame
    by_cases hr : (b.addFrame frame).isReady
    · by_cases hq : pid ∈ queue
      · simp [hr, hq]
      · simp [hr, hq, hflush1]
    · simp [hr]

/-- Witness for C4 at a concrete input: three zero samples at sample rate 2
reach the three-sample readiness target with zero energy. -/
theorem c4_witness :
    (smallBuffer.addFrame [0, 0, 0]).totalSamples ≠ 0 ∧
    calculateAudioEnergySq (smallBuffer.addFrame [0, 0, 0]).samples.flatten <
      silenceThresholdSq ∧
    (((smallBuffer.addFrame [0, 0, 0]).flush 9).1 = none ∧
     ((smallBuffer.addFrame [0, 0, 0]).flush 9).2.samples = [] ∧
     ((smallBuffer.addFrame [0, 0, 0]).flush 9).2.totalSamples = 0 ∧
     (handleAudioFrame smallBuffer [] [] [sampleRemoteQ] pidP [0, 0, 0] 9
        sampleTranscribeOk).detectionCalls = 0) :=
  ⟨by decide, (isSilentAudio_iff _).mp (by decide),
   c4_silent_flush smallBuffer [0, 0, 0] [] [] [sampleRemoteQ] pidP 9 sampleTranscribeOk
     (by decide) ((isSilentAudio_iff _).mp (by decide))⟩

/-- Claim C5: when the translation API call for a recipient fails, translateText
catches the failure and falls back to the original text, and the recipient
still receives the utterance — an incoming message whose translated text is
the original text, followed by the synthesized audio — rather than having it
dropped. -/
theorem c5_translation_failure_fallback (speakerId text srcLang errMsg : String)
    (recipient : TranslationSession) (audio : List ℕ) (conns : List ℕ)
    (hne : srcLang ≠ recipient.targetLanguage)
    (hopen : recipient.wsId ∈ conns) :
    (translateText text srcLang recipient.targetLanguage (ChatOutcome.err errMsg)).translatedText =
      text ∧
    (sendTranslationToRecipient speakerId text srcLang recipient
        { chat := ChatOutcome.err errMsg, tts := TtsOutcome.ok audio } conns).1 =
      [(recipient.wsId, OutMsg.incomingMessage speakerId text text srcLang
          recipient.targetLanguage true),
       (recipient.wsId, OutMsg.audioBinary audio)] := by
  constructor
  · simp [translateText, hne]
  · unfold sendTranslationToRecipient sendTranslationToRecipientTry
    rw [if_neg hne]
    simp [textToSpeech, translateText, hne, sendMessageTo, hopen]

/-- Witness for C5 at concrete inputs. -/
theorem c5_witness :
    (langEn ≠ sampleL1.targetLanguage) ∧ (sampleL1.wsId ∈ [1, 2, 3]) ∧
    ((translateText textHello langEn sampleL1.targetLanguage
        (ChatOutcome.err failedToProcessText)).translatedText = textHello ∧
     (sendTranslationToRecipient pidS textHello langEn sampleL1
        { chat := ChatOutcome.err failedToProcessText, tts := TtsOutcome.ok [7] } [1, 2, 3]).1 =
      [(sampleL1.wsId, OutMsg.incomingMessage pidS textHello textHello langEn
          sampleL1.targetLanguage true),
       (sampleL1.wsId, OutMsg.audioBinary [7])]) :=
  ⟨by decide, by decide,
   c5_translation_failure_fallback pidS textHello langEn failedToProcessText sampleL1 [7]
     [1, 2, 3] (by decide) (by decide)⟩

/-- Claim C6: recipients are processed independently in a fan-out cycle — the
message batch delivered to the i-th recipient depends only on that recipient's
own call outcomes; a synthesis failure for one recipient is caught and turned
into an error report to that recipient alone; and no per-recipient failure
escapes to the speaker's run, whose in-flight flag is still cleared. -/
theorem c6_failure_isolation (speakerId text srcLang : String) (conns : List ℕ)
    (recips : List TranslationSession) (o1 o2 : ℕ → RecipOracle) (i : ℕ)
    (hsame : o1 i = o2 i) :
    (fanOutLoop speakerId text srcLang conns recips o1).1.getD i [] =
      (fanOutLoop speakerId text srcLang conns recips o2).1.getD i [] ∧
    (∀ r chat m, srcLang ≠ r.targetLanguage → r.wsId ∈ conns →
      (sendTranslationToRecipient speakerId text srcLang r
          { chat := chat, tts := TtsOutcome.err m } conns).1 =
        [(r.wsId, OutMsg.errorMsg (translationFromTag ++ speakerId ++ failedColonTag ++
          (ttsFailedTag ++ m)))]) ∧
    (∀ st s now tr recip, s.isProcessing = false →
      (processAudioBuffer st s now conns tr recip).session.isProcessing = false) := by
  refine ⟨fanOutLoop_getD_congr speakerId text srcLang conns recips o1 o2 i hsame, ?_, ?_⟩
  · intro r chat m hne hopen
    unfold sendTranslationToRecipient sendTranslationToRecipientTry
    rw [if_neg hne]
    simp [textToSpeech, sendMessageTo, hopen]
  · intro st s now tr recip hp
    exact processAudioBuffer_clears_flag st s now conns tr recip hp

/-- Witness for C6 at concrete inputs: the first listener's oracle agrees
between the two oracle assignments at index 0, so its batch is unchanged. -/
theorem c6_witness :
    sampleOracle 0 = sampleOracle 0 ∧
    ((fanOutLoop pidS textHello langEn [1, 2, 3] [sampleL1, sampleL2] sampleOracle).1.getD 0 [] =
      (fanOutLoop pidS textHello langEn [1, 2, 3] [sampleL1, sampleL2] sampleOracle).1.getD 0 [] ∧
     (∀ r chat m, langEn ≠ r.targetLanguage → r.wsId ∈ [1, 2, 3] →
       (sendTranslationToRecipient pidS textHello langEn r
           { chat := chat, tts := TtsOutcome.err m } [1, 2, 3]).1 =
         [(r.wsId, OutMsg.errorMsg (translationFromTag ++ pidS ++ failedColonTag ++
           (ttsFailedTag ++ m)))]) ∧
     (∀ st s now tr recip, s.isProcessing = false →
       (processAudioBuffer st s now [1, 2, 3] tr recip).session.isProcessing = false)) :=
  ⟨rfl,
   c6_failure_isolation pidS textHello langEn [1, 2, 3] [sampleL1, sampleL2] sampleOracle
     sampleOracle 0 rfl⟩

/-- Claim C7, counterexample: a 'start' on a connection that already has an
open session does not fail — no DuplicateSession (or any) error is replied;
the handler replies 'started' and silently replaces the stored session. -/
theorem c7_counterexample :
    mapLookup sampleState.sessions 1 = some sampleSpeaker ∧
    (handleControlMessage sampleState 1
        (ControlMsg.start (some pidS2) (some roomAName) (some langEs) none none) 7 [1, 2, 3]).2 =
      [(1, OutMsg.started pidS2 langEs 3)] ∧
    mapLookup (handleControlMessage sampleState 1
        (ControlMsg.start (some pidS2) (some roomAName) (some langEs) none none) 7
        [1, 2, 3]).1.sessions 1 =
      some { wsId := 1, participantId := pidS2, roomName := roomAName, targetLanguage := langEs,
             audioBuffer := [], isProcessing := false, lastProcessTime := 7,
             sampleRate := DEFAULT_SAMPLE_RATE, channels := DEFAULT_CHANNELS } := by
  decide

/-- Claim C7, amended: a 'start' control message always succeeds — it stores a
fresh session for the connection (overwriting any existing one) and replies
'started'; no DuplicateSession check exists. -/
theorem c7_amended (st : ServiceState) (ws : ℕ) (pid room tgt : Option String)
    (sr ch : Option ℕ) (now : ℕ) (conns : List ℕ) :
    ∃ n,
      (handleControlMessage st ws (ControlMsg.start pid room tgt sr ch) now conns).2 =
        sendMessageTo conns ws (OutMsg.started (strOr pid (defaultUserTag ++ toString now))
          (strOr tgt defaultTargetLang) n) ∧
      mapLookup (handleControlMessage st ws (ControlMsg.start pid room tgt sr ch) now
          conns).1.sessions ws =
        some { wsId := ws, participantId := strOr pid (defaultUserTag ++ toString now),
               roomName := strOr room defaultRoomName,
               targetLanguage := strOr tgt defaultTargetLang,
               audioBuffer := [], isProcessing := false, lastProcessTime := now,
               sampleRate := natOr sr DEFAULT_SAMPLE_RATE,
               channels := natOr ch DEFAULT_CHANNELS } := by
  refine ⟨_, rfl, ?_⟩
  simp only [handleControlMessage]
  rw [mapLookup_mapInsert]
  simp

/-- Claim C8, counterexample: a 'configure' for a connection with no open
session is silently ignored — no UnknownSession (or any) message is sent and
the state is unchanged — instead of an error being reported to the sender. -/
theorem c8_counterexample :
    mapLookup emptyServiceState.sessions 5 = none ∧
    handleControlMessage emptyServiceState 5 (ControlMsg.configure (some langEs) none) 3 [5] =
      (emptyServiceState, []) := by
  decide

/-- Claim C8, amended: a 'configure' with no open session is silently ignored
(no reply at all, state unchanged); when a session exists, exactly the supplied
truthy fields (targetLanguage, sampleRate) are updated, every other field is
left unchanged, and 'configured' is replied. -/
theorem c8_amended (st : ServiceState) (ws : ℕ) (tgt : Option String) (sr : Option ℕ)
    (now : ℕ) (conns : List ℕ) :
    (mapLookup st.sessions ws = none →
      handleControlMessage st ws (ControlMsg.configure tgt sr) now conns = (st, [])) ∧
    (∀ s, mapLookup st.sessions ws = some s →
      ∃ s2,
        handleControlMessage st ws (ControlMsg.configure tgt sr) now conns =
          ({ st with sessions := mapInsert st.sessions ws s2 },
           sendMessageTo conns ws (OutMsg.configured s2.targetLanguage)) ∧
        s2.targetLanguage =
          (match tgt with
           | some t => if t = "" then s.targetLanguage else t
           | none => s.targetLanguage) ∧
        s2.sampleRate =
          (match sr with
           | some n => if n = 0 then s.sampleRate else n
           | none => s.sampleRate) ∧
        s2.wsId = s.wsId ∧ s2.participantId = s.participantId ∧ s2.roomName = s.roomName ∧
        s2.audioBuffer = s.audioBuffer ∧ s2.isProcessing = s.isProcessing ∧
        s2.lastProcessTime = s.lastProcessTime ∧ s2.channels = s.channels) := by
  constructor
  · intro h
    unfold handleControlMessage
    rw [h]
  · intro s hsome
    unfold handleControlMessage
    rw [hsome]
    refine ⟨_, rfl, ?_⟩
    cases tgt with
    | none =>
        cases sr with
        | none => simp
        | some n =>
            by_cases hn : n = 0
            · simp [hn]
            · simp [hn]
    | some t =>
        cases sr with
        | none =>
            by_cases ht : t = ""
            · simp [ht]
            · simp [ht]
        | some n =>
            by_cases ht : t = ""
            · by_cases hn : n = 0
              · simp [ht, hn]
              · simp [ht, hn]
            · by_cases hn : n = 0
              · simp [ht, hn]
              · simp [ht, hn]

/-- Witness for the amended C8 at concrete inputs: a session exists on
connection 1, a new target language es is supplied, sample rate left out. -/
theorem c8_witness :
    mapLookup sampleState.sessions 1 = some sampleSpeaker ∧
    (∃ s2,
      handleControlMessage sampleState 1 (ControlMsg.configure (some langEs) none) 3 [1, 2, 3] =
        ({ sampleState with sessions := mapInsert sampleState.sessions 1 s2 },
         sendMessageTo [1, 2, 3] 1 (OutMsg.configured s2.targetLanguage)) ∧
      s2.targetLanguage =
        (match some langEs with
         | some t => if t = "" then sampleSpeaker.targetLanguage else t
         | none => sampleSpeaker.targetLanguage) ∧
      s2.sampleRate =
        (match (none : Option ℕ) with
         | some n => if n = 0 then sampleSpeaker.sampleRate else n
         | none => sampleSpeaker.sampleRate) ∧
      s2.wsId = sampleSpeaker.wsId ∧ s2.participantId = sampleSpeaker.participantId ∧
      s2.roomName = sampleSpeaker.roomName ∧ s2.audioBuffer = sampleSpeaker.audioBuffer ∧
      s2.isProcessing = sampleSpeaker.isProcessing ∧
      s2.lastProcessTime = sampleSpeaker.lastProcessTime ∧
      s2.channels = sampleSpeaker.channels) :=
  ⟨by decide,
   (c8_amended sampleState 1 (some langEs) none 3 [1, 2, 3]).2 sampleSpeaker (by decide)⟩

/-- Witness for the amended C1 at concrete inputs. -/
theorem c1_amended_witness :
    (sampleSpeaker.isProcessing = false ∧ sampleSpeaker.audioBuffer ≠ [] ∧
     avgLevelLt100 (bytesToInt16LE sampleSpeaker.audioBuffer.flatten) = false ∧
     ¬ sampleTr.text.length < 2 ∧
     mapLookup ([] : List (String × LanguageCache)) pidP = none ∧
     getTargetLanguages [sampleRemoteQ] pidP ≠ []) ∧
    ((processAudioBuffer sampleState sampleSpeaker 5000 [1, 2, 3] (.ok sampleTr)
        sampleOracle).translateCalls =
      ((getOtherParticipantsInRoom sampleState sampleSpeaker.wsId sampleSpeaker.roomName
          [1, 2, 3]).filter
        (fun r => !(decide (r.targetLanguage = sampleTr.detectedLanguage)))).length ∧
     (processAudioBuffer sampleState sampleSpeaker 5000 [1, 2, 3] (.ok sampleTr)
        sampleOracle).ttsCalls =
      ((getOtherParticipantsInRoom sampleState sampleSpeaker.wsId sampleSpeaker.roomName
          [1, 2, 3]).filter
        (fun r => !(decide (r.targetLanguage = sampleTr.detectedLanguage)))).length ∧
     (processAudioBufferOptimized [] [sampleRemoteQ] pidP 0 (.ok sampleTr)).pipelineLangs =
      (getTargetLanguages [sampleRemoteQ] pidP).filter
        (fun l => !(decide (l = sampleTr.detectedLanguage))) ∧
     (getTargetLanguages [sampleRemoteQ] pidP).Nodup) :=
  ⟨⟨by decide, by decide, by decide, by decide, by decide, by decide⟩,
   c1_amended sampleState sampleSpeaker 5000 [1, 2, 3] sampleTr sampleOracle [] [sampleRemoteQ]
     pidP 0 sampleTr (by decide) (by decide) (by decide) (by decide) (by decide) (by decide)⟩

/-- Claim C9: for a participant holding a language-cache entry (and with at
least one required target language so that the language step runs), the flush
reuses the cached detected language with zero detection calls exactly when the
entry's age is strictly below the 5-minute TTL; at or beyond the TTL a
detection call is made and, on success, the entry is refreshed with the newly
detected language and the current time; the entry is deleted when the
participant disconnects. -/
theorem c9_language_cache_ttl (cache : List (String × LanguageCache))
    (parts : List RemoteParticipant) (pid : String) (now : ℕ) (c : LanguageCache)
    (tr : TranscriptionResult) (w : WorkerState)
    (hc : mapLookup cache pid = some c)
    (hne : getTargetLanguages parts pid ≠ [])
    (hwnd : mapNodup w.languageCache) :
    (((processAudioBufferOptimized cache parts pid now (.ok tr)).detectionCalls = 0 ∧
      (processAudioBufferOptimized cache parts pid now (.ok tr)).usedLanguage =
        some c.detectedLanguage ∧
      (processAudioBufferOptimized cache parts pid now (.ok tr)).languageCache = cache) ↔
      (now : ℤ) - (c.lastUpdated : ℤ) < (CACHE_DURATION_MS : ℤ)) ∧
    (¬ ((now : ℤ) - (c.lastUpdated : ℤ) < (CACHE_DURATION_MS : ℤ)) →
      (processAudioBufferOptimized cache parts pid now (.ok tr)).detectionCalls = 1 ∧
      mapLookup (processAudioBufferOptimized cache parts pid now (.ok tr)).languageCache pid =
        some { participantId := pid, detectedLanguage := tr.detectedLanguage,
               confidence := tr.confidence.getD 1, lastUpdated := now }) ∧
    mapLookup (handleParticipantDisconnected w pid).languageCache pid = none := by
  have hne2 : (getTargetLanguages parts pid).isEmpty = false := by
    cases hg : getTargetLanguages parts pid with
    | nil => exact absurd hg hne
    | cons a l => rfl
  refine ⟨?_, ?_, ?_⟩
  · by_cases hv : (now : ℤ) - (c.lastUpdated : ℤ) < (CACHE_DURATION_MS : ℤ)
    · simp [processAudioBufferOptimized, hne2, hc, isCacheValid, hv]
    · simp [processAudioBufferOptimized, hne2, hc, isCacheValid, hv]
  · intro hv
    simp [processAudioBufferOptimized, hne2, hc, isCacheValid, hv, mapLookup_mapInsert]
  · exact mapLookup_mapErase_self w.languageCache pid hwnd

/-- Witness for C9 at concrete inputs: the cached entry is exactly 5 minutes
old, so the cache is not reused, detection is re-run and the entry refreshed. -/
theorem c9_witness :
    mapLookup sampleWorkerState.languageCache pidP = some sampleCacheEntry ∧
    getTargetLanguages [sampleRemoteQ] pidP ≠ [] ∧
    mapNodup sampleWorkerState.languageCache ∧
    ((((processAudioBufferOptimized sampleWorkerState.languageCache [sampleRemoteQ] pidP 300000
          (.ok sampleTr)).detectionCalls = 0 ∧
       (processAudioBufferOptimized sampleWorkerState.languageCache [sampleRemoteQ] pidP 300000
          (.ok sampleTr)).usedLanguage = some sampleCacheEntry.detectedLanguage ∧
       (processAudioBufferOptimized sampleWorkerState.languageCache [sampleRemoteQ] pidP 300000
          (.ok sampleTr)).languageCache = sampleWorkerState.languageCache) ↔
       (300000 : ℤ) - (sampleCacheEntry.lastUpdated : ℤ) < (CACHE_DURATION_MS : ℤ)) ∧
     (¬ ((300000 : ℤ) - (sampleCacheEntry.lastUpdated : ℤ) < (CACHE_DURATION_MS : ℤ)) →
       (processAudioBufferOptimized sampleWorkerState.languageCache [sampleRemoteQ] pidP 300000
          (.ok sampleTr)).detectionCalls = 1 ∧
       mapLookup (processAudioBufferOptimized sampleWorkerState.languageCache [sampleRemoteQ]
           pidP 300000 (.ok sampleTr)).languageCache pidP =
         some { participantId := pidP, detectedLanguage := sampleTr.detectedLanguage,
                confidence := sampleTr.confidence.getD 1, lastUpdated := 300000 }) ∧
     mapLookup (handleParticipantDisconnected sampleWorkerState pidP).languageCache pidP =
       none) :=
  ⟨by decide, by decide, by decide,
   c9_language_cache_ttl sampleWorkerState.languageCache [sampleRemoteQ] pidP 300000
     sampleCacheEntry sampleTr sampleWorkerState (by decide) (by decide) (by decide)⟩

/-- Claim C10: a binary WebSocket frame whose first byte is 0x7b (123) is
dispatched to the JSON control path — never to handleAudioData — so under a
well-formed sessions map no session's audio buffer ever has that frame
appended: after handling, every session's buffer is either empty (a fresh
session stored by 'start') or exactly the buffer it had before. -/
theorem c10_brace_frame_is_control (st : ServiceState) (ws : ℕ) (bytes : List ℕ)
    (parse : Option ControlMsg) (now : ℕ) (conns : List ℕ) (tr : TranscribeOutcome)
    (recip : ℕ → RecipOracle) (hnd : mapNodup st.sessions)
    (hb : bytes.head? = some 123) :
    handleWsMessage st ws (WsData.binary bytes) parse now conns tr recip =
      (match parse with
       | some m => handleControlMessage st ws m now conns
       | none => (st, sendMessageTo conns ws (OutMsg.errorMsg failedToProcessText))) ∧
    (∀ w s2,
      mapLookup (handleWsMessage st ws (WsData.binary bytes) parse now conns tr
          recip).1.sessions w = some s2 →
      s2.audioBuffer = [] ∨
      ∃ s1, mapLookup st.sessions w = some s1 ∧ s2.audioBuffer = s1.audioBuffer) := by
  have heq : handleWsMessage st ws (WsData.binary bytes) parse now conns tr recip =
      (match parse with
       | some m => handleControlMessage st ws m now conns
       | none => (st, sendMessageTo conns ws (OutMsg.errorMsg failedToProcessText))) := by
    simp only [handleWsMessage]
    rw [if_pos hb]
  refine ⟨heq, ?_⟩
  intro w s2 hlook
  rw [heq] at hlook
  cases parse with
  | none => exact Or.inr ⟨s2, hlook, rfl⟩
  | some m =>
      cases m with
      | start pid room tgt sr ch =>
          simp only [handleControlMessage] at hlook
          rw [mapLookup_mapInsert] at hlook
          by_cases hw : w = ws
          · rw [if_pos hw] at hlook
            left
            rw [← Option.some.inj hlook]
          · rw [if_neg hw] at hlook
            exact Or.inr ⟨s2, hlook, rfl⟩
      | stop =>
          simp only [handleControlMessage] at hlook
          cases hs : mapLookup st.sessions ws with
          | none =>
              simp only [removeSessionFromRoom, hs] at hlook
              exact Or.inr ⟨s2, hlook, rfl⟩
          | some s =>
              simp only [removeSessionFromRoom, hs] at hlook
              by_cases hw : w = ws
              · subst hw
                rw [mapLookup_mapErase_self st.sessions w hnd] at hlook
                simp at hlook
              · rw [mapLookup_mapErase_ne st.sessions ws w hw] at hlook
                exact Or.inr ⟨s2, hlook, rfl⟩
      | configure tgt sr =>
          simp only [handleControlMessage] at hlook
          cases hs : mapLookup st.sessions ws with
          | none =>
              simp only [hs] at hlook
              exact Or.inr ⟨s2, hlook, rfl⟩
          | some s =>
              simp only [hs] at hlook
              rw [mapLookup_mapInsert] at hlook
              by_cases hw : w = ws
              · rw [if_pos hw] at hlook
                right
                refine ⟨s, by rw [hw]; exact hs, ?_⟩
                rw [← Option.some.inj hlook]
                cases tgt with
                | none =>
                    cases sr with
                    | none => rfl
                    | some n =>
                        by_cases hn : n = 0
                        · simp [hn]
                        · simp [hn]
                | some t =>
                    cases sr with
                    | none =>
                        by_cases ht : t = ""
                        · simp [ht]
                        · simp [ht]
                    | some n =>
                        by_cases ht : t = ""
                        · by_cases hn : n = 0
                          · simp [ht, hn]
                          · simp [ht, hn]
                        · by_cases hn : n = 0
                          · simp [ht, hn]
                          · simp [ht, hn]
              · rw [if_neg hw] at hlook
                exact Or.inr ⟨s2, hlook, rfl⟩
      | other t =>
          simp only [handleControlMessage] at hlook
          exact Or.inr ⟨s2, hlook, rfl⟩

/-- Witness for C10 at concrete inputs: the frame 0x7b 0x22 (an opening brace)
on a connection with a session and a parseable stop message. -/
theorem c10_witness :
    mapNodup sampleState.sessions ∧
    ([123, 34] : List ℕ).head? = some 123 ∧
    (handleWsMessage sampleState 1 (WsData.binary [123, 34]) (some ControlMsg.stop) 0 [1, 2, 3]
        sampleTranscribeOk sampleOracle =
      (match some ControlMsg.stop with
       | some m => handleControlMessage sampleState 1 m 0 [1, 2, 3]
       | none => (sampleState, sendMessageTo [1, 2, 3] 1
           (OutMsg.errorMsg failedToProcessText))) ∧
     (∀ w s2,
       mapLookup (handleWsMessage sampleState 1 (WsData.binary [123, 34])
           (some ControlMsg.stop) 0 [1, 2, 3] sampleTranscribeOk sampleOracle).1.sessions w =
         some s2 →
       s2.audioBuffer = [] ∨
       ∃ s1, mapLookup sampleState.sessions w = some s1 ∧ s2.audioBuffer = s1.audioBuffer)) :=
  ⟨by decide, by decide,
   c10_brace_frame_is_control sampleState 1 [123, 34] (some ControlMsg.stop) 0 [1, 2, 3]
     sampleTranscribeOk sampleOracle (by decide) (by decide)⟩
